import Mathlib

/-!
Shallow embedding of the SMSWithoutBorders Gateway Publisher gRPC service
(`src/grpc_publisher_service.py`).  External collaborators (the vault RPC
client, the OAuth2 provider client, and the `utils` helpers) live outside
`src/`; where a claim depends on their behaviour they are modelled from the
spec and marked as such in their doc comments.  Vault RPC outcomes, payload
decoding outcomes and provider behaviour are supplied as explicit oracle
parameters, and each service handler additionally returns the trace of the
collaborator calls it performed, so that ordering and short-circuit
properties can be stated about the traces.
-/

/-- gRPC status codes used by the service. -/
inductive StatusCode
  | OK
  | INVALID_ARGUMENT
  | UNIMPLEMENTED
  | INTERNAL
  | UNAVAILABLE
  | NOT_FOUND
deriving DecidableEq, Repr

/-- A transport-level error from an upstream RPC: carries a status code and
human-readable details, mirroring `error.code()` and `error.details()`. -/
structure GrpcError where
  code : StatusCode
  details : String
deriving DecidableEq, Repr

/-- The response half of a vault RPC `(response, error)` pair: a `success`
flag, a `message`, and the payload fields used by the callers
(`token` for get-access-token, `payload_plaintext` for decrypt). -/
structure VaultResponse where
  success : Bool
  message : String
  token : String := ""
  payload_plaintext : String := ""
deriving DecidableEq, Repr

/-- A vault RPC result: the `(response, error)` pair returned by every
wrapped vault call.  The Python callers first test `error`, then
`response.success`. -/
structure RpcResult where
  resp : VaultResponse
  err : Option GrpcError
deriving DecidableEq, Repr

/-- Terminal outcome of a publish-shaped RPC handler: either an aborted call
with a status code and details (built by `error_response`), or an ordinary
protobuf reply with `success`, `message` and optional `publisher_response`. -/
inductive Outcome
  | errorStatus (code : StatusCode) (details : String)
  | reply (success : Bool) (message : String) (publisher_response : Option String)
deriving DecidableEq, Repr

/-- Single-quote a string, as the Python f-strings do with `'...'`. -/
def pyQuote (s : String) : String := "\x27" ++ s ++ "\x27"

/-- An OAuth2 token bundle, modelled as a string-keyed dictionary of
string values (access token, refresh token, expiry, ...). -/
abbrev TokenDict := List (String × String)

/-- `json.dumps` on a flat string dictionary: renders the token bundle as a
JSON object. -/
def json_dumps (t : TokenDict) : String :=
  "\x7b" ++ String.intercalate ", "
    (t.map (fun kv => "\"" ++ kv.1 ++ "\": \"" ++ kv.2 ++ "\"")) ++ "\x7d"

/-- One hexadecimal digit. -/
def hexDigit (n : Nat) : Char :=
  if n < 10 then Char.ofNat (48 + n) else Char.ofNat (87 + n)

/-- Python `bytes.hex()`: lowercase hex encoding of a byte sequence. -/
def bytesToHex (bs : List Nat) : String :=
  String.mk (bs.foldr (fun b acc => hexDigit (b / 16 % 16) :: hexDigit (b % 16) :: acc) [])

/-- One base64 alphabet character. -/
def b64Char (n : Nat) : Char :=
  if n < 26 then Char.ofNat (65 + n)
  else if n < 52 then Char.ofNat (97 + (n - 26))
  else if n < 62 then Char.ofNat (48 + (n - 52))
  else if n = 62 then Char.ofNat 43
  else Char.ofNat 47

/-- Python `base64.b64encode(...).decode("utf-8")` on a byte sequence. -/
def base64Encode : List Nat → List Char
  | a :: b :: c :: rest =>
      let n := a * 65536 + b * 256 + c
      b64Char (n / 262144 % 64) :: b64Char (n / 4096 % 64) ::
        b64Char (n / 64 % 64) :: b64Char (n % 64) :: base64Encode rest
  | [a, b] =>
      let n := a * 65536 + b * 256
      [b64Char (n / 262144 % 64), b64Char (n / 4096 % 64), b64Char (n / 64 % 64), Char.ofNat 61]
  | [a] =>
      let n := a * 65536
      [b64Char (n / 262144 % 64), b64Char (n / 4096 % 64), Char.ofNat 61, Char.ofNat 61]
  | [] => []

/-- Python `str.lower()` on one ASCII character. -/
def asciiLower (c : Char) : Char :=
  if 65 ≤ c.toNat ∧ c.toNat ≤ 90 then Char.ofNat (c.toNat + 32) else c

/-- Python `str.lower()`: lowercases the platform names the handlers pass to
the support check. -/
def pyLower (s : String) : String := String.mk (s.data.map asciiLower)

/-- Python `str.split(sep)` on a character list: splits at every separator,
keeping empty segments (`"".split(sep)` is `[""]`). -/
def splitChar (sep : Char) : List Char → List (List Char)
  | [] => [[]]
  | c :: rest =>
      let r := splitChar sep rest
      if c = sep then [] :: r
      else
        match r with
        | [] => [[c]]
        | h :: t => (c :: h) :: t

/-- Python `str.split(sep)` for a one-character separator. -/
def pySplit (sep : Char) (s : String) : List String :=
  (splitChar sep s.data).map String.mk

/-- Whether `n` occurs as a prefix of `hay` (on character lists). -/
def listStartsWith : List Char → List Char → Bool
  | [], _ => true
  | _ :: _, [] => false
  | a :: as, b :: bs => a = b && listStartsWith as bs

/-- Whether `n` occurs as a contiguous sublist of `hay`. -/
def listContainsSub (n : List Char) : List Char → Bool
  | [] => listStartsWith n []
  | c :: rest => listStartsWith n (c :: rest) || listContainsSub n rest

/-- Whether `needle` occurs as a substring of `hay`. -/
def strContains (needle hay : String) : Bool :=
  listContainsSub needle.data hay.data

/-- A platform registry entry: the metadata dictionary stored in
`SUPPORTED_PLATFORMS`, plus the optional `name` key that
`get_platform_details_by_shortcode` injects in place on a successful
lookup (`none` until then). -/
structure PlatformEntry where
  shortcode : String
  service_type : String
  protocol : String
  name : Option String := none
deriving DecidableEq, Repr

/-- The registry: an insertion-ordered dictionary from canonical platform
name to its entry, modelled as an association list. -/
abbrev Registry := List (String × PlatformEntry)

/-- The `SUPPORTED_PLATFORMS` module-level registry as defined at load time:
only gmail, shortcode `g`, service type `email`, protocol `oauth2`. -/
def SUPPORTED_PLATFORMS : Registry :=
  [("gmail", { shortcode := "g", service_type := "email", protocol := "oauth2" })]

/-- Modelled from the spec: `error_response` (from `utils`, which is not
under `src/`) aborts the call with the given status code; the details
surfaced to the caller are the upstream details passed through verbatim,
or the user-facing message when one is supplied (internal details are
logged, never returned). -/
def error_response (details : String) (code : StatusCode) (user_msg : Option String) :
    StatusCode × String :=
  (code, user_msg.getD details)

/-- Build an `Outcome` from an `error_response` result. -/
def errOut (p : StatusCode × String) : Outcome := .errorStatus p.1 p.2

/-- Modelled from the spec: `validate_request_fields` (from `utils`, which is
not under `src/`) checks that every required field of the request is present
(non-empty) and aborts with `INVALID_ARGUMENT` naming the missing fields;
it returns nothing when validation passes. -/
def validate_request_fields (fields : List (String × String)) : Option (StatusCode × String) :=
  let missing := fields.filter (fun f => f.2 = "")
  if missing.isEmpty then none
  else
    some (StatusCode.INVALID_ARGUMENT,
      "Missing required fields: " ++ String.intercalate ", " (missing.map (fun f => f.1)))

/-- `check_platform_supported(platform_name, protocol)`: returns the
`NotImplementedError` message raised when the platform is absent from the
registry or its registered protocol differs from the requested protocol,
and `none` when the platform/protocol pair is supported. -/
def check_platform_supported (registry : Registry) (platform_name protocol : String) :
    Option String :=
  match registry.lookup platform_name with
  | none =>
      some ("The platform " ++ pyQuote platform_name ++ " is currently not supported. " ++
        "Please contact the developers for more information on when " ++
        "this platform will be implemented.")
  | some platform_details =>
      let expected_protocol := platform_details.protocol
      if protocol ≠ expected_protocol then
        some ("The protocol " ++ pyQuote protocol ++ " for platform " ++ pyQuote platform_name ++
          " is currently not supported. " ++
          "Expected protocol: " ++ pyQuote expected_protocol ++ ".")
      else none

/-- The registry scan inside `get_platform_details_by_shortcode`: the first
entry whose `shortcode` matches has a `name` key written into it in place
(`details["name"] = platform_name`), and that same updated entry is both
stored back in the registry and returned. -/
def findAndName : Registry → String → Option (PlatformEntry × Registry)
  | [], _ => none
  | (platform_name, details) :: rest, shortcode =>
      if details.shortcode = shortcode then
        let updated := { details with name := some platform_name }
        some (updated, (platform_name, updated) :: rest)
      else
        match findAndName rest shortcode with
        | some (d, rest2) => some (d, (platform_name, details) :: rest2)
        | none => none

/-- `get_platform_details_by_shortcode(shortcode)`: returns
`(platform_details, error_message)` together with the registry as it
stands after the call (the matched entry is mutated in place by the `name`
injection; on a miss the registry is untouched and the error message
enumerates every available shortcode). -/
def get_platform_details_by_shortcode (registry : Registry) (shortcode : String) :
    Option PlatformEntry × Option String × Registry :=
  match findAndName registry shortcode with
  | some (details, registry2) => (some details, none, registry2)
  | none =>
      let available_platforms := String.intercalate ", "
        (registry.map (fun pd => pyQuote pd.2.shortcode ++ " for " ++ pd.1))
      let error_message :=
        "No platform found for shortcode " ++ pyQuote shortcode ++ ". " ++
        "Available shortcodes: " ++ available_platforms
      (none, some error_message, registry)

/-- Result of the update-token callback as seen by the provider client: the
Python `update_token` returns `True` on success, and otherwise returns the
terminal response object that becomes the publish call's own result. -/
inductive UpdateTokenResult
  | ok
  | failed (out : Outcome)
deriving DecidableEq, Repr

/-- Collaborator calls traced for `PublishContent`. -/
inductive Call
  | decode_relay_sms_payload (content : String)
  | get_platform_details (shortcode : String)
  | decrypt_payload_call (device_id_hex ciphertext_b64 : String)
  | get_entity_access_token_call (device_id_hex platform account_identifier : String)
  | send_message_call (from_email : String)
  | update_entity_token_call (device_id token account_identifier platform : String)
deriving DecidableEq, Repr

/-- `create_update_token_context(device_id, account_identifier, platform_name,
response, context)`: returns the `update_token` callback.  `update_token(token)`
calls `update_entity_token` with the token serialized by `json.dumps` and the
captured device_id / account_identifier / platform; a transport error becomes
an `error_response` with the vault's code and details, a logical
`success=false` becomes a reply carrying the vault's message, and otherwise
the callback returns `True`. -/
def create_update_token_context (device_id account_identifier platform_name : String)
    (update_rpc : RpcResult) : TokenDict → UpdateTokenResult × Call :=
  fun token =>
    let call := Call.update_entity_token_call device_id (json_dumps token)
      account_identifier platform_name
    match update_rpc.err with
    | some e => (.failed (errOut (error_response e.details e.code none)), call)
    | none =>
        if update_rpc.resp.success = false then
          (.failed (.reply update_rpc.resp.success update_rpc.resp.message none), call)
        else (.ok, call)

/-- Modelled from the spec: `parse_email_content` (from `utils`, not under
`src/`) splits the decrypted plaintext into six positional fields
(from, to, cc, bcc, subject, body) on the payload's `:` delimiter. -/
def parse_email_content (payload : String) :
    String × String × String × String × String × String :=
  let parts := pySplit (Char.ofNat 58) payload
  (parts.getD 0 "", parts.getD 1 "", parts.getD 2 "", parts.getD 3 "",
    parts.getD 4 "", parts.getD 5 "")

/-- A provider-agnostic email message object. -/
structure EmailMessage where
  from_email : String
  to_email : String
  subject : String
  body : String
  cc_email : String
  bcc_email : String
deriving DecidableEq, Repr

/-- Modelled from the spec: `create_email_message` (from `utils`, not under
`src/`) assembles the provider-agnostic message object from the parsed
positional fields. -/
def create_email_message (from_email to_email subject body cc_email bcc_email : String) :
    EmailMessage :=
  ⟨from_email, to_email, subject, body, cc_email, bcc_email⟩

/-- Oracle for one provider `send_message` execution: either the send
succeeds outright, or the provider silently refreshes the token mid-send
(invoking the update callback with the new token) and then succeeds, or the
provider raises an exception. -/
inductive SendBehavior
  | plain (provider_response : String)
  | refreshThen (new_token : TokenDict) (provider_response : String)
  | raises (exc : String)
deriving DecidableEq, Repr

/-- Result of one provider `send_message` execution. -/
inductive SendOutcome
  | sent (provider_response : String)
  | abortedByRefresh (out : Outcome)
  | raised (exc : String)
deriving DecidableEq, Repr

/-- Modelled from the spec: the OAuth2 provider client's `send_message`
(from `oauth2.py`, not under `src/`).  When the provider silently refreshes
the credential mid-send it invokes the registered update callback with the
new token; a non-truthy callback result is the vault's reported error and
aborts the send, propagating through the same response/error channel as the
caller's own in-flight request; otherwise the send returns the provider
response, or raises on provider failure. -/
def send_message (behavior : SendBehavior)
    (update_token : TokenDict → UpdateTokenResult × Call) : SendOutcome × List Call :=
  match behavior with
  | .plain r => (.sent r, [])
  | .refreshThen tok r =>
      match update_token tok with
      | (.ok, call) => (.sent r, [call])
      | (.failed o, call) => (.abortedByRefresh o, [call])
  | .raises m => (.raised m, [])

/-- `handle_oauth2_email(device_id, platform_name, payload, token)`: parses
the decrypted payload into email fields, builds the message object, and
sends it through the provider client bound to the token and to the
update-token callback captured over `device_id`, the sender address and
`platform_name`. -/
def handle_oauth2_email (device_id platform_name payload _token : String)
    (update_rpc : RpcResult) (behavior : SendBehavior) : SendOutcome × List Call :=
  let (from_email, to_email, cc_email, bcc_email, subject, body) :=
    parse_email_content payload
  let _email_message := create_email_message from_email to_email subject body cc_email bcc_email
  let (send_outcome, update_calls) :=
    send_message behavior
      (create_update_token_context device_id from_email platform_name update_rpc)
  (send_outcome, Call.send_message_call from_email :: update_calls)

/-- The `PublishContent` request: the encoded relay payload bytes. -/
structure PublishRequest where
  content : String
deriving DecidableEq, Repr

/-- Oracle inputs for the collaborator calls a `PublishContent` execution may
perform: the relay payload decode result
(`(platform_letter, encrypted_content, device_id)` or an error), the vault
decrypt / get-access-token / update-token RPC results, and the provider
send behaviour. -/
structure PublishEnv where
  decodeResult : Except String (String × List Nat × List Nat)
  decryptResult : RpcResult
  getTokenResult : RpcResult
  updateResult : RpcResult
  sendBehavior : SendBehavior

/-- `PublisherService.PublishContent(request, context)`: the publish
pipeline.  Returns the terminal outcome, the trace of collaborator calls
performed, and the registry as it stands after the call (the shortcode
lookup mutates the matched entry in place). -/
def PublishContent (registry : Registry) (request : PublishRequest) (env : PublishEnv) :
    Outcome × List Call × Registry :=
  match validate_request_fields [("content", request.content)] with
  | some p => (errOut p, [], registry)
  | none =>
    match env.decodeResult with
    | .error decode_error =>
        (errOut (error_response decode_error .INVALID_ARGUMENT (some "Invalid content format.")),
          [.decode_relay_sms_payload request.content], registry)
    | .ok (platform_letter, encrypted_content, device_id) =>
      let trace1 : List Call :=
        [.decode_relay_sms_payload request.content, .get_platform_details platform_letter]
      match get_platform_details_by_shortcode registry platform_letter with
      | (none, platform_err, registry1) =>
          (errOut (error_response (platform_err.getD "") .INVALID_ARGUMENT none),
            trace1, registry1)
      | (some platform_info, _, registry1) =>
        let device_id_hex := bytesToHex device_id
        let ciphertext_b64 := String.mk (base64Encode encrypted_content)
        let trace2 := trace1 ++ [Call.decrypt_payload_call device_id_hex ciphertext_b64]
        match env.decryptResult.err with
        | some e => (errOut (error_response e.details e.code none), trace2, registry1)
        | none =>
          if env.decryptResult.resp.success = false then
            (.reply env.decryptResult.resp.success env.decryptResult.resp.message none,
              trace2, registry1)
          else
            let decrypted_content := env.decryptResult.resp.payload_plaintext
            let platform_name := platform_info.name.getD ""
            let account_identifier := (pySplit (Char.ofNat 58) decrypted_content).getD 0 ""
            let trace3 := trace2 ++
              [Call.get_entity_access_token_call device_id_hex platform_name account_identifier]
            match env.getTokenResult.err with
            | some e => (errOut (error_response e.details e.code none), trace3, registry1)
            | none =>
              if env.getTokenResult.resp.success = false then
                (.reply env.getTokenResult.resp.success env.getTokenResult.resp.message none,
                  trace3, registry1)
              else
                let access_token := env.getTokenResult.resp.token
                if platform_info.protocol = "oauth2" ∧ platform_info.service_type = "email" then
                  let (send_outcome, dispatch_calls) :=
                    handle_oauth2_email device_id_hex platform_name decrypted_content
                      access_token env.updateResult env.sendBehavior
                  let trace4 := trace3 ++ dispatch_calls
                  match send_outcome with
                  | .sent provider_response =>
                      (.reply true ("Successfully published " ++ platform_name ++ " message")
                        (some provider_response), trace4, registry1)
                  | .abortedByRefresh out => (out, trace4, registry1)
                  | .raised exc =>
                      (errOut (error_response exc .INTERNAL
                        (some "Oops! Something went wrong. Please try again later.")),
                        trace4, registry1)
                else
                  (.reply true ("Successfully published " ++ platform_name ++ " message")
                    none, trace3, registry1)

/-- The `GetOAuth2AuthorizationUrl` request. -/
structure AuthUrlRequest where
  platform : String
  state : String := ""
  code_verifier : String := ""
  autogenerate_code_verifier : Bool := false
deriving DecidableEq, Repr

/-- Terminal outcome of `GetOAuth2AuthorizationUrl`. -/
inductive AuthUrlOutcome
  | errorStatus (code : StatusCode) (details : String)
  | issued (authorization_url state code_verifier message : String)
deriving DecidableEq, Repr

/-- Collaborator calls traced for the authorization-url handler. -/
inductive OAuthCall
  | oauth2_client_init (platform : String)
  | get_authorization_url_call
deriving DecidableEq, Repr

/-- `PublisherService.GetOAuth2AuthorizationUrl(request, context)`: validates
the platform field, checks platform support for protocol `oauth2` on the
lowercased name (an unsupported platform surfaces as UNIMPLEMENTED with the
raised message), then builds the provider client on the original request
platform and asks it for an authorization URL; a provider-side exception is
converted to INTERNAL with the generic user-facing message. -/
def GetOAuth2AuthorizationUrl (registry : Registry) (request : AuthUrlRequest)
    (authorizationResult : Except String (String × String × String)) :
    AuthUrlOutcome × List OAuthCall :=
  match validate_request_fields [("platform", request.platform)] with
  | some p => (.errorStatus p.1 p.2, [])
  | none =>
    match check_platform_supported registry (pyLower request.platform) "oauth2" with
    | some e =>
        (.errorStatus (error_response e .UNIMPLEMENTED none).1
          (error_response e .UNIMPLEMENTED none).2, [])
    | none =>
      match authorizationResult with
      | .error exc =>
          (.errorStatus (error_response exc .INTERNAL
              (some "Oops! Something went wrong. Please try again later.")).1
            (error_response exc .INTERNAL
              (some "Oops! Something went wrong. Please try again later.")).2,
            [.oauth2_client_init request.platform])
      | .ok (authorization_url, state, code_verifier) =>
          (.issued authorization_url state code_verifier
            "Successfully generated authorization url",
            [.oauth2_client_init request.platform, .get_authorization_url_call])

/-- The `ExchangeOAuth2CodeAndStore` request. -/
structure ExchangeRequest where
  long_lived_token : String
  platform : String
  authorization_code : String
  code_verifier : String := ""
deriving DecidableEq, Repr

/-- A provider user profile, as returned by `fetch_userinfo()`. -/
structure Profile where
  email : Option String
  username : Option String
deriving DecidableEq, Repr

/-- Python `profile.get("email") or profile.get("username")`: the email when
present and non-empty, otherwise the username (empty when both are absent). -/
def orFalsy (a b : Option String) : String :=
  match a with
  | some s => if s = "" then b.getD "" else s
  | none => b.getD ""

/-- Collaborator calls traced for the code-exchange handler. -/
inductive ExchangeCall
  | list_entity_stored_tokens_call (long_lived_token : String)
  | oauth2_client_init (platform : String)
  | store_entity_token_call (long_lived_token platform account_identifier token : String)
deriving DecidableEq, Repr

/-- Oracle inputs for `ExchangeOAuth2CodeAndStore`: the vault list-tokens
error (its response body is unused by the handler), the provider
code-exchange result (an `OAuthError` message, or the token bundle and user
profile), and the vault store result. -/
structure ExchangeEnv where
  listResult : Option GrpcError
  fetchResult : Except String (TokenDict × Profile)
  storeResult : RpcResult

/-- `PublisherService.ExchangeOAuth2CodeAndStore(request, context)`:
validate → check support on the lowercased platform → list stored tokens →
exchange the code and fetch the profile on the original request platform →
store the serialized token under the account identifier derived from the
profile.  An `OAuthError` surfaces as INVALID_ARGUMENT; an unsupported
platform as UNIMPLEMENTED; vault errors pass through their code/details. -/
def ExchangeOAuth2CodeAndStore (registry : Registry) (request : ExchangeRequest)
    (env : ExchangeEnv) : Outcome × List ExchangeCall :=
  match validate_request_fields
      [("long_lived_token", request.long_lived_token), ("platform", request.platform),
        ("authorization_code", request.authorization_code)] with
  | some p => (errOut p, [])
  | none =>
    match check_platform_supported registry (pyLower request.platform) "oauth2" with
    | some e => (errOut (error_response e .UNIMPLEMENTED none), [])
    | none =>
      let trace1 : List ExchangeCall :=
        [.list_entity_stored_tokens_call request.long_lived_token]
      match env.listResult with
      | some e => (errOut (error_response e.details e.code none), trace1)
      | none =>
        let trace2 := trace1 ++ [ExchangeCall.oauth2_client_init request.platform]
        match env.fetchResult with
        | .error oauth_error =>
            (errOut (error_response oauth_error .INVALID_ARGUMENT none), trace2)
        | .ok (token, profile) =>
          let account_identifier := orFalsy profile.email profile.username
          let trace3 := trace2 ++
            [ExchangeCall.store_entity_token_call request.long_lived_token request.platform
              account_identifier (json_dumps token)]
          match env.storeResult.err with
          | some e => (errOut (error_response e.details e.code none), trace3)
          | none =>
            if env.storeResult.resp.success = false then
              (.reply env.storeResult.resp.success env.storeResult.resp.message none, trace3)
            else
              (.reply true "Successfully fetched and stored token" none, trace3)

/-- The `RevokeAndDeleteOAuth2Token` request. -/
structure RevokeRequest where
  long_lived_token : String
  platform : String
  account_identifier : String
deriving DecidableEq, Repr

/-- Collaborator calls traced for the revoke-and-delete handler. -/
inductive RevokeCall
  | get_entity_access_token_call (long_lived_token platform account_identifier : String)
  | revoke_token_call (platform : String)
  | delete_entity_token_call (long_lived_token platform account_identifier : String)
deriving DecidableEq, Repr

/-- Oracle inputs for `RevokeAndDeleteOAuth2Token`: the vault
get-access-token result, the provider revoke result (modelled from the
spec's provider-client contract, under which the provider client raises on
failure, so a failed revoke is an exception message), and the vault delete
result. -/
structure RevokeEnv where
  getTokenResult : RpcResult
  revokeResult : Except String Bool
  deleteResult : RpcResult

/-- `PublisherService.RevokeAndDeleteOAuth2Token(request, context)`:
validate → check support on the lowercased platform → fetch the stored
access token from the vault → ask the provider to revoke it → delete the
stored token from the vault.  A vault transport error passes its
code/details through; a vault logical failure is a `success=false` reply; a
provider revoke exception is caught at the handler boundary as INTERNAL
with the generic user-facing message, before any delete is attempted. -/
def RevokeAndDeleteOAuth2Token (registry : Registry) (request : RevokeRequest)
    (env : RevokeEnv) : Outcome × List RevokeCall :=
  match validate_request_fields
      [("long_lived_token", request.long_lived_token), ("platform", request.platform),
        ("account_identifier", request.account_identifier)] with
  | some p => (errOut p, [])
  | none =>
    match check_platform_supported registry (pyLower request.platform) "oauth2" with
    | some e => (errOut (error_response e .UNIMPLEMENTED none), [])
    | none =>
      let getCall := RevokeCall.get_entity_access_token_call request.long_lived_token
        request.platform request.account_identifier
      match env.getTokenResult.err with
      | some e => (errOut (error_response e.details e.code none), [getCall])
      | none =>
        if env.getTokenResult.resp.success = false then
          (.reply env.getTokenResult.resp.success env.getTokenResult.resp.message none,
            [getCall])
        else
          let revokeCall := RevokeCall.revoke_token_call request.platform
          match env.revokeResult with
          | .error exc =>
              (errOut (error_response exc .INTERNAL
                (some "Oops! Something went wrong. Please try again later.")),
                [getCall, revokeCall])
          | .ok _ =>
            let deleteCall := RevokeCall.delete_entity_token_call request.long_lived_token
              request.platform request.account_identifier
            match env.deleteResult.err with
            | some e =>
                (errOut (error_response e.details e.code none),
                  [getCall, revokeCall, deleteCall])
            | none =>
              if env.deleteResult.resp.success = false then
                (.reply env.deleteResult.resp.success env.deleteResult.resp.message none,
                  [getCall, revokeCall, deleteCall])
              else
                (.reply true "Successfully deleted token" none,
                  [getCall, revokeCall, deleteCall])

/-- The gmail registry entry as defined at load time. -/
def gmailEntry : PlatformEntry :=
  { shortcode := "g", service_type := "email", protocol := "oauth2" }

/-- The gmail registry entry after a successful shortcode lookup has written
the `name` key into it. -/
def gmailNamed : PlatformEntry := { gmailEntry with name := some "gmail" }

/-- A registry extended past the handler set: a second entry whose
`(protocol, service_type)` pair has no registered handler. -/
def chatEntry : PlatformEntry :=
  { shortcode := "c", service_type := "chat", protocol := "oauth2" }

/-- A registry holding gmail plus an entry for which the dispatch stage has
no registered handler. -/
def registryWithChat : Registry := [("gmail", gmailEntry), ("chatsvc", chatEntry)]

theorem listContainsSub_append (n : List Char) :
    ∀ (h t : List Char), listContainsSub n t = true → listContainsSub n (h ++ t) = true
  | [], _, ht => ht
  | c :: rest, t, ht => by
      unfold listContainsSub
      have ih := listContainsSub_append n rest t ht
      simp [ih]

theorem strContains_append (n h t : String) (hc : strContains n t = true) :
    strContains n (h ++ t) = true := by
  unfold strContains at *
  have hdata : (h ++ t).data = h.data ++ t.data := rfl
  rw [hdata]
  exact listContainsSub_append n.data h.data t.data hc

/-- Claim C7: for the shortcode of a registered platform,
`get_platform_details_by_shortcode` returns that platform's descriptor with
no error; for every other shortcode it returns no descriptor and an error
message that names every valid shortcode in the registry. -/
theorem C7_resolve_by_shortcode (s : String) :
    (s = "g" →
      get_platform_details_by_shortcode SUPPORTED_PLATFORMS s =
        (some gmailNamed, none, [("gmail", gmailNamed)])) ∧
    (s ≠ "g" →
      get_platform_details_by_shortcode SUPPORTED_PLATFORMS s =
        (none, some ("No platform found for shortcode " ++ pyQuote s ++ ". " ++
          "Available shortcodes: " ++ String.intercalate ", "
            (SUPPORTED_PLATFORMS.map (fun pd => pyQuote pd.2.shortcode ++ " for " ++ pd.1))),
         SUPPORTED_PLATFORMS) ∧
      ∀ p ∈ SUPPORTED_PLATFORMS,
        strContains (pyQuote p.2.shortcode ++ " for " ++ p.1)
          ("No platform found for shortcode " ++ pyQuote s ++ ". " ++
            "Available shortcodes: " ++ String.intercalate ", "
              (SUPPORTED_PLATFORMS.map (fun pd => pyQuote pd.2.shortcode ++ " for " ++ pd.1)))
          = true) := by
  constructor
  · intro h; subst h; decide
  · intro h
    have hne : ¬ (("g" : String) = s) := fun hh => h hh.symm
    constructor
    · simp [get_platform_details_by_shortcode, findAndName, SUPPORTED_PLATFORMS, hne]
    · intro p hp
      simp only [SUPPORTED_PLATFORMS, List.mem_singleton] at hp
      subst hp
      apply strContains_append
      decide

/-- Claim C7 witness: concrete instances of both branches. -/
theorem C7_resolve_by_shortcode_witness :
    (get_platform_details_by_shortcode SUPPORTED_PLATFORMS "g" =
      (some gmailNamed, none, [("gmail", gmailNamed)])) ∧
    (get_platform_details_by_shortcode SUPPORTED_PLATFORMS "x" =
      (none, some ("No platform found for shortcode " ++ pyQuote "x" ++ ". " ++
        "Available shortcodes: " ++ String.intercalate ", "
          (SUPPORTED_PLATFORMS.map (fun pd => pyQuote pd.2.shortcode ++ " for " ++ pd.1))),
       SUPPORTED_PLATFORMS)) :=
  ⟨(C7_resolve_by_shortcode "g").1 rfl, ((C7_resolve_by_shortcode "x").2 (by decide)).1⟩

/-- Claim C8: `check_platform_supported` rejects exactly when the platform
name is absent from the registry or its registered protocol differs from
the requested protocol, and a rejection raised from the authorization-url
handler surfaces with status UNIMPLEMENTED carrying the raised message. -/
theorem C8_check_platform_supported :
    (∀ (registry : Registry) (name protocol : String),
      check_platform_supported registry name protocol ≠ none ↔
        (registry.lookup name = none ∨
          ∃ d, registry.lookup name = some d ∧ protocol ≠ d.protocol)) ∧
    (∀ (registry : Registry) (request : AuthUrlRequest)
        (authRes : Except String (String × String × String)) (e : String),
      request.platform ≠ "" →
      check_platform_supported registry (pyLower request.platform) "oauth2" = some e →
      (GetOAuth2AuthorizationUrl registry request authRes).1 =
        AuthUrlOutcome.errorStatus .UNIMPLEMENTED e) := by
  constructor
  · intro registry name protocol
    unfold check_platform_supported
    cases hl : registry.lookup name with
    | none => simp [hl]
    | some d =>
        by_cases hp : protocol = d.protocol
        · simp [hl, hp]
        · simp [hl, hp]
  · intro registry request authRes e hplat hchk
    simp [GetOAuth2AuthorizationUrl, validate_request_fields, List.filter, hplat,
      hchk, error_response]

/-- Claim C8 witness: an unregistered platform is rejected, and the
authorization-url handler surfaces the rejection as UNIMPLEMENTED. -/
theorem C8_check_platform_supported_witness :
    (check_platform_supported SUPPORTED_PLATFORMS "telegram" "oauth2" ≠ none) ∧
    ((GetOAuth2AuthorizationUrl SUPPORTED_PLATFORMS
        { platform := "telegram" } (Except.ok ("u", "s", "c"))).1 =
      AuthUrlOutcome.errorStatus .UNIMPLEMENTED
        ("The platform " ++ pyQuote "telegram" ++ " is currently not supported. " ++
          "Please contact the developers for more information on when " ++
          "this platform will be implemented.")) :=
  ⟨(C8_check_platform_supported.1 SUPPORTED_PLATFORMS "telegram" "oauth2").mpr
      (Or.inl (by decide)),
   C8_check_platform_supported.2 SUPPORTED_PLATFORMS { platform := "telegram" }
      (Except.ok ("u", "s", "c")) _ (by decide) (by decide)⟩

/-- Claim C9: the shortcode lookup is not a pure read: a matching lookup
writes the `name` key (the platform's canonical name) into the shared
`SUPPORTED_PLATFORMS` entry in place and returns that same updated entry —
the post-call registry holds the updated entry in place of the original,
every other field of the entry is unchanged, and the returned descriptor is
the stored one. -/
theorem C9_shortcode_lookup_mutates_registry :
    get_platform_details_by_shortcode SUPPORTED_PLATFORMS "g" =
      (some gmailNamed, none, [("gmail", gmailNamed)]) ∧
    SUPPORTED_PLATFORMS = [("gmail", gmailEntry)] ∧
    gmailNamed = { gmailEntry with name := some "gmail" } ∧
    gmailEntry.name = none := by
  decide

theorem validate_one_ne (nm c : String) (hc : c ≠ "") :
    validate_request_fields [(nm, c)] = none := by
  simp [validate_request_fields, List.filter, hc]

theorem validate_three_ne (n1 c1 n2 c2 n3 c3 : String)
    (h1 : c1 ≠ "") (h2 : c2 ≠ "") (h3 : c3 ≠ "") :
    validate_request_fields [(n1, c1), (n2, c2), (n3, c3)] = none := by
  simp [validate_request_fields, List.filter, h1, h2, h3]

/-- Claim C5: when the decrypt RPC reports no transport error but a
`success=false` response, `PublishContent` returns an ordinary reply with
`success=false` carrying the vault's message — not an INTERNAL error
status. -/
theorem C5_decrypt_logical_failure (registry : Registry) (request : PublishRequest)
    (env : PublishEnv) (letter : String) (enc dev : List Nat)
    (platform_info : PlatformEntry) (reg2 : Registry)
    (hc : request.content ≠ "")
    (hdec : env.decodeResult = .ok (letter, enc, dev))
    (hres : get_platform_details_by_shortcode registry letter = (some platform_info, none, reg2))
    (herr : env.decryptResult.err = none)
    (hsucc : env.decryptResult.resp.success = false) :
    (PublishContent registry request env).1 =
      Outcome.reply false env.decryptResult.resp.message none := by
  simp [PublishContent, validate_one_ne _ _ hc, hdec, hres, herr, hsucc]

/-- Claim C5 witness: a concrete logical decrypt failure surfaces as a
`success=false` reply with the vault's message. -/
theorem C5_decrypt_logical_failure_witness :
    (PublishContent SUPPORTED_PLATFORMS ⟨"payload"⟩
        ⟨.ok ("g", [1], [2]),
         ⟨⟨false, "no token found", "", ""⟩, none⟩,
         ⟨⟨true, "", "", ""⟩, none⟩,
         ⟨⟨true, "", "", ""⟩, none⟩,
         SendBehavior.plain "r"⟩).1 =
      Outcome.reply false "no token found" none :=
  C5_decrypt_logical_failure SUPPORTED_PLATFORMS ⟨"payload"⟩ _ "g" [1] [2]
    gmailNamed [("gmail", gmailNamed)] (by decide) rfl (by decide) rfl rfl

/-- Claim C6: when the decrypt RPC reports a transport error,
`PublishContent` returns a status whose code and details equal the upstream
error's code and details exactly. -/
theorem C6_decrypt_transport_error (registry : Registry) (request : PublishRequest)
    (env : PublishEnv) (letter : String) (enc dev : List Nat)
    (platform_info : PlatformEntry) (reg2 : Registry) (e : GrpcError)
    (hc : request.content ≠ "")
    (hdec : env.decodeResult = .ok (letter, enc, dev))
    (hres : get_platform_details_by_shortcode registry letter = (some platform_info, none, reg2))
    (herr : env.decryptResult.err = some e) :
    (PublishContent registry request env).1 = Outcome.errorStatus e.code e.details := by
  simp [PublishContent, validate_one_ne _ _ hc, hdec, hres, herr, errOut, error_response]

/-- Claim C6 witness: a concrete decrypt transport error passes its code and
details through verbatim. -/
theorem C6_decrypt_transport_error_witness :
    (PublishContent SUPPORTED_PLATFORMS ⟨"payload"⟩
        ⟨.ok ("g", [1], [2]),
         ⟨⟨true, "", "", ""⟩, some ⟨StatusCode.UNAVAILABLE, "vault unavailable"⟩⟩,
         ⟨⟨true, "", "", ""⟩, none⟩,
         ⟨⟨true, "", "", ""⟩, none⟩,
         SendBehavior.plain "r"⟩).1 =
      Outcome.errorStatus StatusCode.UNAVAILABLE "vault unavailable" :=
  C6_decrypt_transport_error SUPPORTED_PLATFORMS ⟨"payload"⟩ _ "g" [1] [2]
    gmailNamed [("gmail", gmailNamed)] ⟨StatusCode.UNAVAILABLE, "vault unavailable"⟩
    (by decide) rfl (by decide) rfl

/-- Claim C2: when the provider send triggers the token-refresh callback
with a new token, `update_entity_token` is called with the new token
serialized as JSON and the same device_id / account_identifier / platform
used by the in-flight request, and a failure of that update (transport
error or `success=false`) makes the publish call return the vault's
reported error instead of a success response. -/
theorem C2_refresh_during_publish (registry : Registry) (request : PublishRequest)
    (env : PublishEnv) (letter : String) (enc dev : List Nat)
    (platform_info : PlatformEntry) (reg2 : Registry) (tok : TokenDict) (resp : String)
    (hc : request.content ≠ "")
    (hdec : env.decodeResult = .ok (letter, enc, dev))
    (hres : get_platform_details_by_shortcode registry letter = (some platform_info, none, reg2))
    (hde : env.decryptResult.err = none)
    (hds : env.decryptResult.resp.success = true)
    (hge : env.getTokenResult.err = none)
    (hgs : env.getTokenResult.resp.success = true)
    (hproto : platform_info.protocol = "oauth2")
    (hsvc : platform_info.service_type = "email")
    (hsend : env.sendBehavior = .refreshThen tok resp) :
    ((PublishContent registry request env).2.1 =
      [Call.decode_relay_sms_payload request.content,
       Call.get_platform_details letter,
       Call.decrypt_payload_call (bytesToHex dev) (String.mk (base64Encode enc)),
       Call.get_entity_access_token_call (bytesToHex dev) (platform_info.name.getD "")
         ((pySplit (Char.ofNat 58) env.decryptResult.resp.payload_plaintext).getD 0 ""),
       Call.send_message_call
         ((pySplit (Char.ofNat 58) env.decryptResult.resp.payload_plaintext).getD 0 ""),
       Call.update_entity_token_call (bytesToHex dev) (json_dumps tok)
         ((pySplit (Char.ofNat 58) env.decryptResult.resp.payload_plaintext).getD 0 "")
         (platform_info.name.getD "")]) ∧
    (∀ e, env.updateResult.err = some e →
      (PublishContent registry request env).1 = Outcome.errorStatus e.code e.details) ∧
    (env.updateResult.err = none → env.updateResult.resp.success = false →
      (PublishContent registry request env).1 =
        Outcome.reply false env.updateResult.resp.message none) := by
  refine ⟨?_, ?_, ?_⟩
  · cases hue : env.updateResult.err with
    | some e =>
        simp [PublishContent, handle_oauth2_email, send_message, create_update_token_context,
          parse_email_content, validate_one_ne _ _ hc, hdec, hres, hde, hds, hge, hgs,
          hproto, hsvc, hsend, hue]
    | none =>
        cases hus : env.updateResult.resp.success with
        | false =>
            simp [PublishContent, handle_oauth2_email, send_message,
              create_update_token_context, parse_email_content, validate_one_ne _ _ hc,
              hdec, hres, hde, hds, hge, hgs, hproto, hsvc, hsend, hue, hus]
        | true =>
            simp [PublishContent, handle_oauth2_email, send_message,
              create_update_token_context, parse_email_content, validate_one_ne _ _ hc,
              hdec, hres, hde, hds, hge, hgs, hproto, hsvc, hsend, hue, hus]
  · intro e hue
    simp [PublishContent, handle_oauth2_email, send_message, create_update_token_context,
      parse_email_content, validate_one_ne _ _ hc, hdec, hres, hde, hds, hge, hgs,
      hproto, hsvc, hsend, hue, errOut, error_response]
  · intro hue hus
    simp [PublishContent, handle_oauth2_email, send_message, create_update_token_context,
      parse_email_content, validate_one_ne _ _ hc, hdec, hres, hde, hds, hge, hgs,
      hproto, hsvc, hsend, hue, hus]

/-- Claim C2 witness: a concrete refresh-during-publish in which the vault's
update reports a logical failure; the update call carries the serialized new
token and the in-flight identifiers, and the publish call returns the
vault's reported error. -/
theorem C2_refresh_during_publish_witness :
    ((PublishContent SUPPORTED_PLATFORMS ⟨"payload"⟩
        ⟨.ok ("g", [9], [0]),
         ⟨⟨true, "", "", "alice@x.com:bob@y.com:::hello:body"⟩, none⟩,
         ⟨⟨true, "", "tok", ""⟩, none⟩,
         ⟨⟨false, "update failed", "", ""⟩, none⟩,
         SendBehavior.refreshThen [("access_token", "new")] "sent"⟩).2.1 =
      [Call.decode_relay_sms_payload "payload",
       Call.get_platform_details "g",
       Call.decrypt_payload_call "00" "CQ==",
       Call.get_entity_access_token_call "00" "gmail" "alice@x.com",
       Call.send_message_call "alice@x.com",
       Call.update_entity_token_call "00" "\x7b\"access_token\": \"new\"\x7d"
         "alice@x.com" "gmail"]) ∧
    ((PublishContent SUPPORTED_PLATFORMS ⟨"payload"⟩
        ⟨.ok ("g", [9], [0]),
         ⟨⟨true, "", "", "alice@x.com:bob@y.com:::hello:body"⟩, none⟩,
         ⟨⟨true, "", "tok", ""⟩, none⟩,
         ⟨⟨false, "update failed", "", ""⟩, none⟩,
         SendBehavior.refreshThen [("access_token", "new")] "sent"⟩).1 =
      Outcome.reply false "update failed" none) :=
  ⟨(C2_refresh_during_publish SUPPORTED_PLATFORMS ⟨"payload"⟩ _ "g" [9] [0]
      gmailNamed [("gmail", gmailNamed)] [("access_token", "new")] "sent"
      (by decide) rfl (by decide) rfl rfl rfl rfl (by decide) (by decide) rfl).1,
   (C2_refresh_during_publish SUPPORTED_PLATFORMS ⟨"payload"⟩ _ "g" [9] [0]
      gmailNamed [("gmail", gmailNamed)] [("access_token", "new")] "sent"
      (by decide) rfl (by decide) rfl rfl rfl rfl (by decide) (by decide) rfl).2.2 rfl rfl⟩

/-- Claim C4: `PublishContent` is a short-circuiting pipeline: whichever
stage fails first — field validation, payload decode, shortcode resolution,
decrypt (transport or logical), credential fetch (transport or logical), or
dispatch — its error outcome is returned as the result of the call, and the
trace of collaborator calls stops at that stage, so no later stage is ever
invoked. -/
theorem C4_publish_short_circuit (registry : Registry) (request : PublishRequest)
    (env : PublishEnv) :
    (request.content = "" →
      PublishContent registry request env =
        (Outcome.errorStatus .INVALID_ARGUMENT "Missing required fields: content",
         [], registry)) ∧
    (∀ d, request.content ≠ "" → env.decodeResult = .error d →
      PublishContent registry request env =
        (Outcome.errorStatus .INVALID_ARGUMENT "Invalid content format.",
         [Call.decode_relay_sms_payload request.content], registry)) ∧
    (∀ letter enc dev msg reg1, request.content ≠ "" →
      env.decodeResult = .ok (letter, enc, dev) →
      get_platform_details_by_shortcode registry letter = (none, some msg, reg1) →
      PublishContent registry request env =
        (Outcome.errorStatus .INVALID_ARGUMENT msg,
         [Call.decode_relay_sms_payload request.content,
          Call.get_platform_details letter], reg1)) ∧
    (∀ letter enc dev platform_info reg1 e, request.content ≠ "" →
      env.decodeResult = .ok (letter, enc, dev) →
      get_platform_details_by_shortcode registry letter = (some platform_info, none, reg1) →
      env.decryptResult.err = some e →
      PublishContent registry request env =
        (Outcome.errorStatus e.code e.details,
         [Call.decode_relay_sms_payload request.content,
          Call.get_platform_details letter,
          Call.decrypt_payload_call (bytesToHex dev) (String.mk (base64Encode enc))],
         reg1)) ∧
    (∀ letter enc dev platform_info reg1, request.content ≠ "" →
      env.decodeResult = .ok (letter, enc, dev) →
      get_platform_details_by_shortcode registry letter = (some platform_info, none, reg1) →
      env.decryptResult.err = none → env.decryptResult.resp.success = false →
      PublishContent registry request env =
        (Outcome.reply false env.decryptResult.resp.message none,
         [Call.decode_relay_sms_payload request.content,
          Call.get_platform_details letter,
          Call.decrypt_payload_call (bytesToHex dev) (String.mk (base64Encode enc))],
         reg1)) ∧
    (∀ letter enc dev platform_info reg1 e, request.content ≠ "" →
      env.decodeResult = .ok (letter, enc, dev) →
      get_platform_details_by_shortcode registry letter = (some platform_info, none, reg1) →
      env.decryptResult.err = none → env.decryptResult.resp.success = true →
      env.getTokenResult.err = some e →
      PublishContent registry request env =
        (Outcome.errorStatus e.code e.details,
         [Call.decode_relay_sms_payload request.content,
          Call.get_platform_details letter,
          Call.decrypt_payload_call (bytesToHex dev) (String.mk (base64Encode enc)),
          Call.get_entity_access_token_call (bytesToHex dev) (platform_info.name.getD "")
            ((pySplit (Char.ofNat 58) env.decryptResult.resp.payload_plaintext).getD 0 "")],
         reg1)) ∧
    (∀ letter enc dev platform_info reg1, request.content ≠ "" →
      env.decodeResult = .ok (letter, enc, dev) →
      get_platform_details_by_shortcode registry letter = (some platform_info, none, reg1) →
      env.decryptResult.err = none → env.decryptResult.resp.success = true →
      env.getTokenResult.err = none → env.getTokenResult.resp.success = false →
      PublishContent registry request env =
        (Outcome.reply false env.getTokenResult.resp.message none,
         [Call.decode_relay_sms_payload request.content,
          Call.get_platform_details letter,
          Call.decrypt_payload_call (bytesToHex dev) (String.mk (base64Encode enc)),
          Call.get_entity_access_token_call (bytesToHex dev) (platform_info.name.getD "")
            ((pySplit (Char.ofNat 58) env.decryptResult.resp.payload_plaintext).getD 0 "")],
         reg1)) ∧
    (∀ letter enc dev platform_info reg1 exc, request.content ≠ "" →
      env.decodeResult = .ok (letter, enc, dev) →
      get_platform_details_by_shortcode registry letter = (some platform_info, none, reg1) →
      env.decryptResult.err = none → env.decryptResult.resp.success = true →
      env.getTokenResult.err = none → env.getTokenResult.resp.success = true →
      platform_info.protocol = "oauth2" → platform_info.service_type = "email" →
      env.sendBehavior = .raises exc →
      (PublishContent registry request env).1 =
        Outcome.errorStatus .INTERNAL "Oops! Something went wrong. Please try again later.") := by
  refine ⟨?_, ?_, ?_, ?_, ?_, ?_, ?_, ?_⟩
  · intro hc
    have hv : validate_request_fields [("content", request.content)] =
        some (StatusCode.INVALID_ARGUMENT, "Missing required fields: content") := by
      rw [hc]; decide
    simp [PublishContent, hv, errOut]
  · intro d hc hdec
    simp [PublishContent, validate_one_ne _ _ hc, hdec, errOut, error_response]
  · intro letter enc dev msg reg1 hc hdec hres
    simp [PublishContent, validate_one_ne _ _ hc, hdec, hres, errOut, error_response]
  · intro letter enc dev platform_info reg1 e hc hdec hres herr
    simp [PublishContent, validate_one_ne _ _ hc, hdec, hres, herr, errOut, error_response]
  · intro letter enc dev platform_info reg1 hc hdec hres herr hsucc
    simp [PublishContent, validate_one_ne _ _ hc, hdec, hres, herr, hsucc]
  · intro letter enc dev platform_info reg1 e hc hdec hres hde hds hge
    simp [PublishContent, validate_one_ne _ _ hc, hdec, hres, hde, hds, hge,
      errOut, error_response]
  · intro letter enc dev platform_info reg1 hc hdec hres hde hds hge hgs
    simp [PublishContent, validate_one_ne _ _ hc, hdec, hres, hde, hds, hge, hgs]
  · intro letter enc dev platform_info reg1 exc hc hdec hres hde hds hge hgs hproto hsvc hsend
    simp [PublishContent, handle_oauth2_email, send_message, create_update_token_context,
      parse_email_content, validate_one_ne _ _ hc, hdec, hres, hde, hds, hge, hgs,
      hproto, hsvc, hsend, errOut, error_response]

/-- Claim C4 witness: a concrete run that fails at the shortcode-resolution
stage returns that stage's error and performs no later collaborator call. -/
theorem C4_publish_short_circuit_witness :
    PublishContent SUPPORTED_PLATFORMS ⟨"payload"⟩
        ⟨.ok ("z", [1], [2]),
         ⟨⟨true, "", "", ""⟩, none⟩,
         ⟨⟨true, "", "", ""⟩, none⟩,
         ⟨⟨true, "", "", ""⟩, none⟩,
         SendBehavior.plain "r"⟩ =
      (Outcome.errorStatus .INVALID_ARGUMENT
        ("No platform found for shortcode " ++ pyQuote "z" ++ ". " ++
          "Available shortcodes: " ++ pyQuote "g" ++ " for gmail"),
       [Call.decode_relay_sms_payload "payload", Call.get_platform_details "z"],
       SUPPORTED_PLATFORMS) :=
  (C4_publish_short_circuit SUPPORTED_PLATFORMS ⟨"payload"⟩ _).2.2.1 "z" [1] [2]
    ("No platform found for shortcode " ++ pyQuote "z" ++ ". " ++
      "Available shortcodes: " ++ pyQuote "g" ++ " for gmail")
    SUPPORTED_PLATFORMS (by decide) rfl (by decide)

/-- Claim C3: `RevokeAndDeleteOAuth2Token` performs get-access-token, then
provider revoke, then vault delete, in that order; every execution's call
trace is a prefix of that sequence, a failing step's failure is surfaced to
the caller, and no step after a failing step is attempted — in particular a
failing revoke (a provider exception) means delete is never called. -/
theorem C3_revoke_order (registry : Registry) (request : RevokeRequest) (env : RevokeEnv)
    (h1 : request.long_lived_token ≠ "") (h2 : request.platform ≠ "")
    (h3 : request.account_identifier ≠ "")
    (hchk : check_platform_supported registry (pyLower request.platform) "oauth2" = none) :
    ((RevokeAndDeleteOAuth2Token registry request env).2 =
        [RevokeCall.get_entity_access_token_call request.long_lived_token request.platform
          request.account_identifier] ∨
      (RevokeAndDeleteOAuth2Token registry request env).2 =
        [RevokeCall.get_entity_access_token_call request.long_lived_token request.platform
          request.account_identifier,
         RevokeCall.revoke_token_call request.platform] ∨
      (RevokeAndDeleteOAuth2Token registry request env).2 =
        [RevokeCall.get_entity_access_token_call request.long_lived_token request.platform
          request.account_identifier,
         RevokeCall.revoke_token_call request.platform,
         RevokeCall.delete_entity_token_call request.long_lived_token request.platform
          request.account_identifier]) ∧
    (∀ e, env.getTokenResult.err = some e →
      RevokeAndDeleteOAuth2Token registry request env =
        (Outcome.errorStatus e.code e.details,
         [RevokeCall.get_entity_access_token_call request.long_lived_token request.platform
           request.account_identifier])) ∧
    (env.getTokenResult.err = none → env.getTokenResult.resp.success = false →
      RevokeAndDeleteOAuth2Token registry request env =
        (Outcome.reply false env.getTokenResult.resp.message none,
         [RevokeCall.get_entity_access_token_call request.long_lived_token request.platform
           request.account_identifier])) ∧
    (∀ exc, env.getTokenResult.err = none → env.getTokenResult.resp.success = true →
      env.revokeResult = .error exc →
      RevokeAndDeleteOAuth2Token registry request env =
        (Outcome.errorStatus .INTERNAL "Oops! Something went wrong. Please try again later.",
         [RevokeCall.get_entity_access_token_call request.long_lived_token request.platform
           request.account_identifier,
          RevokeCall.revoke_token_call request.platform])) ∧
    (∀ b, env.getTokenResult.err = none → env.getTokenResult.resp.success = true →
      env.revokeResult = .ok b →
      (RevokeAndDeleteOAuth2Token registry request env).2 =
        [RevokeCall.get_entity_access_token_call request.long_lived_token request.platform
          request.account_identifier,
         RevokeCall.revoke_token_call request.platform,
         RevokeCall.delete_entity_token_call request.long_lived_token request.platform
          request.account_identifier]) := by
  have hval := validate_three_ne "long_lived_token" request.long_lived_token
    "platform" request.platform "account_identifier" request.account_identifier h1 h2 h3
  refine ⟨?_, ?_, ?_, ?_, ?_⟩
  · cases hge : env.getTokenResult.err with
    | some e => simp [RevokeAndDeleteOAuth2Token, hval, hchk, hge]
    | none =>
        cases hgs : env.getTokenResult.resp.success with
        | false => simp [RevokeAndDeleteOAuth2Token, hval, hchk, hge, hgs]
        | true =>
            cases hrv : env.revokeResult with
            | error exc => simp [RevokeAndDeleteOAuth2Token, hval, hchk, hge, hgs, hrv]
            | ok b =>
                cases hde : env.deleteResult.err with
                | some e =>
                    simp [RevokeAndDeleteOAuth2Token, hval, hchk, hge, hgs, hrv, hde]
                | none =>
                    cases hds : env.deleteResult.resp.success with
                    | false =>
                        simp [RevokeAndDeleteOAuth2Token, hval, hchk, hge, hgs, hrv, hde, hds]
                    | true =>
                        simp [RevokeAndDeleteOAuth2Token, hval, hchk, hge, hgs, hrv, hde, hds]
  · intro e hge
    simp [RevokeAndDeleteOAuth2Token, hval, hchk, hge, errOut, error_response]
  · intro hge hgs
    simp [RevokeAndDeleteOAuth2Token, hval, hchk, hge, hgs]
  · intro exc hge hgs hrv
    simp [RevokeAndDeleteOAuth2Token, hval, hchk, hge, hgs, hrv, errOut, error_response]
  · intro b hge hgs hrv
    cases hde : env.deleteResult.err with
    | some e => simp [RevokeAndDeleteOAuth2Token, hval, hchk, hge, hgs, hrv, hde]
    | none =>
        cases hds : env.deleteResult.resp.success with
        | false => simp [RevokeAndDeleteOAuth2Token, hval, hchk, hge, hgs, hrv, hde, hds]
        | true => simp [RevokeAndDeleteOAuth2Token, hval, hchk, hge, hgs, hrv, hde, hds]

/-- Claim C3 witness: with a stored token and a provider revoke that fails
by raising, the trace stops at revoke — delete is never called — and the
failure is surfaced as INTERNAL. -/
theorem C3_revoke_order_witness :
    RevokeAndDeleteOAuth2Token SUPPORTED_PLATFORMS ⟨"llt", "gmail", "alice@x.com"⟩
        ⟨⟨⟨true, "", "tok", ""⟩, none⟩, .error "revocation refused", ⟨⟨true, "", "", ""⟩, none⟩⟩ =
      (Outcome.errorStatus .INTERNAL "Oops! Something went wrong. Please try again later.",
       [RevokeCall.get_entity_access_token_call "llt" "gmail" "alice@x.com",
        RevokeCall.revoke_token_call "gmail"]) :=
  (C3_revoke_order SUPPORTED_PLATFORMS ⟨"llt", "gmail", "alice@x.com"⟩ _
    (by decide) (by decide) (by decide) (by decide)).2.2.2.1 "revocation refused" rfl rfl rfl

/-- Claim C10: platform-name matching is case-insensitive only for the
support check: for the input `"Gmail"` the lowercased support check passes
even though the registry has no `"Gmail"` key, while the OAuth2 client and
the vault store / get / delete calls all receive the original, non-canonical
casing. -/
theorem C10_case_insensitive_check_only :
    check_platform_supported SUPPORTED_PLATFORMS (pyLower "Gmail") "oauth2" = none ∧
    SUPPORTED_PLATFORMS.lookup "Gmail" = none ∧
    ("Gmail" : String) ≠ "gmail" ∧
    (∀ env tok profile, env.listResult = none →
      env.fetchResult = .ok (tok, profile) →
      (ExchangeOAuth2CodeAndStore SUPPORTED_PLATFORMS ⟨"llt", "Gmail", "code", ""⟩ env).2 =
        [ExchangeCall.list_entity_stored_tokens_call "llt",
         ExchangeCall.oauth2_client_init "Gmail",
         ExchangeCall.store_entity_token_call "llt" "Gmail"
           (orFalsy profile.email profile.username) (json_dumps tok)]) ∧
    (∀ url st cv,
      (GetOAuth2AuthorizationUrl SUPPORTED_PLATFORMS { platform := "Gmail" }
          (Except.ok (url, st, cv))).2 =
        [OAuthCall.oauth2_client_init "Gmail", OAuthCall.get_authorization_url_call]) ∧
    (∀ env b, env.getTokenResult.err = none → env.getTokenResult.resp.success = true →
      env.revokeResult = .ok b →
      (RevokeAndDeleteOAuth2Token SUPPORTED_PLATFORMS ⟨"llt", "Gmail", "alice@x.com"⟩ env).2 =
        [RevokeCall.get_entity_access_token_call "llt" "Gmail" "alice@x.com",
         RevokeCall.revoke_token_call "Gmail",
         RevokeCall.delete_entity_token_call "llt" "Gmail" "alice@x.com"]) := by
  refine ⟨by decide, by decide, by decide, ?_, ?_, ?_⟩
  · intro env tok profile hl hf
    have hval : validate_request_fields
        [("long_lived_token", "llt"), ("platform", "Gmail"), ("authorization_code", "code")] =
        none := by decide
    have hchk : check_platform_supported SUPPORTED_PLATFORMS (pyLower "Gmail") "oauth2" =
        none := by decide
    cases hse : env.storeResult.err with
    | some e => simp [ExchangeOAuth2CodeAndStore, hval, hchk, hl, hf, hse]
    | none =>
        cases hss : env.storeResult.resp.success with
        | false => simp [ExchangeOAuth2CodeAndStore, hval, hchk, hl, hf, hse, hss]
        | true => simp [ExchangeOAuth2CodeAndStore, hval, hchk, hl, hf, hse, hss]
  · intro url st cv
    rfl
  · intro env b hge hgs hrv
    exact (C3_revoke_order SUPPORTED_PLATFORMS ⟨"llt", "Gmail", "alice@x.com"⟩ env
      (by decide) (by decide) (by decide) (by decide)).2.2.2.2 b hge hgs hrv

/-- Claim C10 witness: concrete collaborator results exercising all three
handlers with the platform spelled `"Gmail"`. -/
theorem C10_case_insensitive_check_only_witness :
    (ExchangeOAuth2CodeAndStore SUPPORTED_PLATFORMS ⟨"llt", "Gmail", "code", ""⟩
        ⟨none, .ok ([("access_token", "tk")], ⟨some "alice@x.com", none⟩),
         ⟨⟨true, "", "", ""⟩, none⟩⟩).2 =
      [ExchangeCall.list_entity_stored_tokens_call "llt",
       ExchangeCall.oauth2_client_init "Gmail",
       ExchangeCall.store_entity_token_call "llt" "Gmail" "alice@x.com"
         "\x7b\"access_token\": \"tk\"\x7d"] ∧
    (RevokeAndDeleteOAuth2Token SUPPORTED_PLATFORMS ⟨"llt", "Gmail", "alice@x.com"⟩
        ⟨⟨⟨true, "", "tok", ""⟩, none⟩, .ok true, ⟨⟨true, "", "", ""⟩, none⟩⟩).2 =
      [RevokeCall.get_entity_access_token_call "llt" "Gmail" "alice@x.com",
       RevokeCall.revoke_token_call "Gmail",
       RevokeCall.delete_entity_token_call "llt" "Gmail" "alice@x.com"] :=
  ⟨C10_case_insensitive_check_only.2.2.2.1
      ⟨none, .ok ([("access_token", "tk")], ⟨some "alice@x.com", none⟩),
        ⟨⟨true, "", "", ""⟩, none⟩⟩
      [("access_token", "tk")] ⟨some "alice@x.com", none⟩ rfl rfl,
   C10_case_insensitive_check_only.2.2.2.2.2
      ⟨⟨⟨true, "", "tok", ""⟩, none⟩, .ok true, ⟨⟨true, "", "", ""⟩, none⟩⟩
      true rfl rfl rfl⟩

/-- Claim C1 (failing input): for a resolved descriptor whose
`(protocol, service_type)` pair is not `(oauth2, email)` — here
`(oauth2, chat)` — the dispatch stage does not fail closed: `PublishContent`
returns a `success=true` response with an empty publisher response and the
trace shows no handler (send) call after the credential fetch. -/
theorem C1_dispatch_silent_noop_on_unhandled_pair :
    PublishContent registryWithChat ⟨"payload"⟩
        ⟨.ok ("c", [1], [2]),
         ⟨⟨true, "", "", "alice@x.com:rest"⟩, none⟩,
         ⟨⟨true, "", "tok", ""⟩, none⟩,
         ⟨⟨true, "", "", ""⟩, none⟩,
         SendBehavior.plain "resp"⟩ =
      (Outcome.reply true "Successfully published chatsvc message" none,
       [Call.decode_relay_sms_payload "payload",
        Call.get_platform_details "c",
        Call.decrypt_payload_call "02" "AQ==",
        Call.get_entity_access_token_call "02" "chatsvc" "alice@x.com"],
       [("gmail", gmailEntry), ("chatsvc", { chatEntry with name := some "chatsvc" })]) := by
  decide
